import Mathlib

/-
  Verification of the remote-assist session orchestration subsystem:
  the signaling relay (packages/signaling-server/src/index.ts), the
  client peer-session controller (src/components/LiveAgent/LiveAgentAssistPanel.tsx),
  the ticket broker bridge (server/websocket-server.js) and the
  annotation expiry logic, shallowly embedded as executable Lean
  definitions with theorems about them.
-/

set_option linter.unusedVariables false

namespace SignalingServer

/-- Participant record of the signaling server (index.ts, type Participant).
The opaque WebSocket handle is abstracted to the one observable bit the
server reads from it: whether readyState equals WebSocket.OPEN. -/
structure Participant where
  id : String
  role : String
  socketOpen : Bool
deriving DecidableEq

/-- Payloads the server constructs or relays: an error message object,
a participants counter object, or an opaque client payload relayed verbatim. -/
inductive Payload where
  | message (text : String)
  | participants (count : Nat)
  | client (raw : String)
deriving DecidableEq

/-- SignalingEnvelope (index.ts): type is a plain string at runtime since the
JSON parse performs no validation; senderRole is optional. -/
structure Envelope where
  type : String
  payload : Option Payload
  senderRole : Option String
deriving DecidableEq

/-- Session record (index.ts, type Session). The participants Map is modelled
as a list in insertion order with unique ids. -/
structure Session where
  id : String
  participants : List Participant
  createdAt : Nat
deriving DecidableEq

/-- The sessions Map of the server, as an association list keyed by session id. -/
abbrev Registry := List (String × Session)

/-- sessions.get: first entry with the given key. -/
def lookupSession : Registry → String → Option Session
  | [], _ => none
  | e :: rest, sid => if e.1 = sid then some e.2 else lookupSession rest sid

/-- broadcast (index.ts lines 118-136): deliver the message to every
participant of the session except excludeParticipantId, skipping sockets
that are not OPEN; silent no-op for an unknown session. The result is the
list of deliveries (participant id, envelope). -/
def broadcast (sessions : Registry) (sessionId : String) (message : Envelope)
    (excludeParticipantId : Option String) : List (String × Envelope) :=
  match lookupSession sessions sessionId with
  | none => []
  | some session =>
    session.participants.filterMap fun participant =>
      if excludeParticipantId = some participant.id then none
      else if participant.socketOpen = true then some (participant.id, message)
      else none

theorem broadcast_delivery_envelope (sessions : Registry) (sessionId : String)
    (message : Envelope) (ex : Option String) :
    ∀ d ∈ broadcast sessions sessionId message ex, d.2 = message := by
  intro d hd
  unfold broadcast at hd
  cases hl : lookupSession sessions sessionId with
  | none => rw [hl] at hd; cases hd
  | some session =>
    rw [hl] at hd
    rcases List.mem_filterMap.mp hd with ⟨p, _, hf⟩
    by_cases h1 : ex = some p.id
    · rw [if_pos h1] at hf; cases hf
    · rw [if_neg h1] at hf
      by_cases h2 : p.socketOpen = true
      · rw [if_pos h2] at hf
        cases hf
        rfl
      · rw [if_neg h2] at hf; cases hf

/-- C1: for every session and every envelope relayed by broadcast with an
excluded sender id, the envelope is delivered to every other participant
whose channel is open, is never delivered to the sender, and broadcast is a
silent no-op for an unknown session id. -/
theorem broadcast_excludes_sender (sessions : Registry) (sessionId : String)
    (message : Envelope) (sender : String) :
    (∀ session, lookupSession sessions sessionId = some session →
      ∀ p ∈ session.participants, p.id ≠ sender → p.socketOpen = true →
        (p.id, message) ∈ broadcast sessions sessionId message (some sender)) ∧
    (∀ d ∈ broadcast sessions sessionId message (some sender), d.1 ≠ sender) ∧
    (lookupSession sessions sessionId = none →
      broadcast sessions sessionId message (some sender) = []) := by
  refine ⟨?_, ?_, ?_⟩
  · intro session hl p hp hne hopen
    unfold broadcast
    rw [hl]
    refine List.mem_filterMap.mpr ⟨p, hp, ?_⟩
    have h1 : ¬ (some sender = some p.id) := by
      intro h; exact hne (Option.some.inj h).symm
    rw [if_neg h1, if_pos hopen]
  · intro d hd
    unfold broadcast at hd
    cases hl : lookupSession sessions sessionId with
    | none => rw [hl] at hd; cases hd
    | some session =>
      rw [hl] at hd
      rcases List.mem_filterMap.mp hd with ⟨p, _, hf⟩
      by_cases h1 : (some sender : Option String) = some p.id
      · rw [if_pos h1] at hf; cases hf
      · rw [if_neg h1] at hf
        by_cases h2 : p.socketOpen = true
        · rw [if_pos h2] at hf
          cases hf
          intro h
          exact h1 (congrArg some h.symm)
        · rw [if_neg h2] at hf; cases hf
  · intro h
    unfold broadcast
    rw [h]

def sampleVtm : Participant := ⟨"A", "vtm", true⟩

def sampleAgent : Participant := ⟨"B", "agent", true⟩

def sampleSession : Session := ⟨"S1", [sampleVtm, sampleAgent], 0⟩

def sampleRegistry : Registry := [("S1", sampleSession)]

def sampleOffer : Envelope := ⟨"offer", some (Payload.client "sdp-offer"), some "vtm"⟩

/-- Witness for C1 at a concrete two-participant session: the envelope sent
by A reaches B, and the one delivery produced is not addressed to A. -/
theorem broadcast_excludes_sender_witness :
    ("B", sampleOffer) ∈ broadcast sampleRegistry "S1" sampleOffer (some "A") ∧
    ("B", sampleOffer).1 ≠ "A" :=
  ⟨(broadcast_excludes_sender sampleRegistry "S1" sampleOffer "A").1 sampleSession
      (by decide) sampleAgent (by decide) (by decide) (by decide),
   (broadcast_excludes_sender sampleRegistry "S1" sampleOffer "A").2.1
      ("B", sampleOffer) (by decide)⟩

/-- The one error envelope the server sends for an unknown session id
(index.ts lines 147-156). -/
def errorEnvelope : Envelope :=
  ⟨"error", some (Payload.message "Session not found"), none⟩

/-- Connection-scoped effects of the wss connection handler: a frame sent to
the connecting socket itself, closing that socket, or a delivery to another
participant. -/
inductive ConnEffect where
  | sendSelf (e : Envelope)
  | closeSelf
  | deliver (pid : String) (e : Envelope)
deriving DecidableEq

/-- session.participants.delete applied through the registry: drop the
participant with the given id from the named session. -/
def removeParticipant (sessions : Registry) (sessionId pid : String) : Registry :=
  sessions.map fun e =>
    if e.1 = sessionId then
      (e.1, { e.2 with participants := e.2.participants.filter (fun p => p.id != pid) })
    else e

/-- sessions.delete for every entry with the given key (keys are unique). -/
def eraseSession : Registry → String → Registry
  | [], _ => []
  | e :: rest, sid =>
    if e.1 = sid then eraseSession rest sid else e :: eraseSession rest sid

/-- closeSessionIfEmpty (index.ts lines 108-116). -/
def closeSessionIfEmpty (sessions : Registry) (sessionId : String) : Registry :=
  match lookupSession sessions sessionId with
  | none => sessions
  | some session =>
    if session.participants.isEmpty then eraseSession sessions sessionId
    else sessions

/-- cleanup (index.ts lines 215-228), registered for both close and error:
remove the participant, broadcast a hangup to the remaining participants,
then delete the session if it became empty. Returns the new registry and
the hangup deliveries. -/
def cleanup (sessions : Registry) (sessionId pid role : String) :
    Registry × List (String × Envelope) :=
  let sessions1 := removeParticipant sessions sessionId pid
  let out := broadcast sessions1 sessionId ⟨"hangup", none, some role⟩ (some pid)
  (closeSessionIfEmpty sessions1 sessionId, out)

/-- Map.set with an existing key: replace the stored session. -/
def setSession : Registry → String → Session → Registry
  | [], _, _ => []
  | e :: rest, sid, s =>
    if e.1 = sid then (sid, s) :: rest else e :: setSession rest sid s

/-- The wss.on connection handler (index.ts lines 138-189) up to handler
registration: attach to the session named by the handshake parameters, or
send one error envelope and close when the id is absent or unknown.
newPid stands for the freshly generated nanoid. -/
def handleConnection (sessions : Registry) (sessionId : Option String)
    (role : String) (newPid : String) : Registry × List ConnEffect :=
  match sessionId with
  | none => (sessions, [ConnEffect.sendSelf errorEnvelope, ConnEffect.closeSelf])
  | some sid =>
    match lookupSession sessions sid with
    | none => (sessions, [ConnEffect.sendSelf errorEnvelope, ConnEffect.closeSelf])
    | some session =>
      let participant : Participant := ⟨newPid, role, true⟩
      let updated : Session :=
        { session with participants := session.participants ++ [participant] }
      let sessions1 := setSession sessions sid updated
      let count := updated.participants.length
      let selfUpdate : Envelope :=
        ⟨"peer-update", some (Payload.participants count), none⟩
      let peersUpdate : Envelope :=
        ⟨"peer-update", some (Payload.participants count), some role⟩
      (sessions1,
        ConnEffect.sendSelf selfUpdate ::
          (broadcast sessions1 sid peersUpdate (some newPid)).map
            (fun d => ConnEffect.deliver d.1 d.2))

theorem lookupSession_removeParticipant (sessions : Registry) (sid pid : String) :
    lookupSession (removeParticipant sessions sid pid) sid =
      (lookupSession sessions sid).map
        (fun s => { s with participants := s.participants.filter (fun p => p.id != pid) }) := by
  induction sessions with
  | nil => rfl
  | cons e rest ih =>
    by_cases h : e.1 = sid
    · simp [removeParticipant, lookupSession, h]
    · simp only [removeParticipant, List.map_cons, lookupSession, if_neg h]
      exact ih

theorem lookupSession_eraseSession (sessions : Registry) (sid : String) :
    lookupSession (eraseSession sessions sid) sid = none := by
  induction sessions with
  | nil => rfl
  | cons e rest ih =>
    by_cases h : e.1 = sid
    · simpa [eraseSession, h] using ih
    · simpa [eraseSession, lookupSession, h] using ih

/-- C2: after the last remaining participant of a session detaches (the
close/error cleanup runs), the session is gone from the registry, and a
subsequent connection with the same session id gets exactly one error
envelope and a close, with no participant registered and the registry
unchanged. -/
theorem session_removed_after_last_detach (sessions : Registry) (sid : String)
    (session : Session) (p : Participant) (role role2 pid2 : String)
    (hlook : lookupSession sessions sid = some session)
    (hone : session.participants = [p]) :
    lookupSession (cleanup sessions sid p.id role).1 sid = none ∧
    handleConnection (cleanup sessions sid p.id role).1 (some sid) role2 pid2 =
      ((cleanup sessions sid p.id role).1,
        [ConnEffect.sendSelf errorEnvelope, ConnEffect.closeSelf]) := by
  have hrem : lookupSession (removeParticipant sessions sid p.id) sid =
      some { session with participants := [] } := by
    rw [lookupSession_removeParticipant, hlook]
    simp [hone]
  have hres : lookupSession (cleanup sessions sid p.id role).1 sid = none := by
    show lookupSession
      (closeSessionIfEmpty (removeParticipant sessions sid p.id) sid) sid = none
    rw [closeSessionIfEmpty, hrem]
    simp only [List.isEmpty_nil, if_pos]
    exact lookupSession_eraseSession _ sid
  refine ⟨hres, ?_⟩
  rw [handleConnection, hres]

def soloSession : Session := ⟨"S2", [sampleVtm], 0⟩

def soloRegistry : Registry := [("S2", soloSession)]

/-- Witness for C2: a one-participant session; after cleanup the reconnect
attempt fails with the error envelope. -/
theorem session_removed_after_last_detach_witness :
    lookupSession (cleanup soloRegistry "S2" "A" "vtm").1 "S2" = none ∧
    handleConnection (cleanup soloRegistry "S2" "A" "vtm").1 (some "S2") "agent" "C" =
      ((cleanup soloRegistry "S2" "A" "vtm").1,
        [ConnEffect.sendSelf errorEnvelope, ConnEffect.closeSelf]) :=
  session_removed_after_last_detach soloRegistry "S2" soloSession
    sampleVtm "vtm" "agent" "C" (by decide) (by decide)

/-- The socket.on message handler (index.ts lines 191-213) for a frame whose
JSON parse succeeded: relay offer, answer, ice, hangup and peer-ready
envelopes through broadcast, tagging them with the connection role taken
from the handshake; every other type is ignored. Returns the deliveries. -/
def handleMessage (sessions : Registry) (sessionId pid role : String)
    (parsed : Envelope) : List (String × Envelope) :=
  if parsed.type = "offer" ∨ parsed.type = "answer" ∨ parsed.type = "ice" ∨
      parsed.type = "hangup" ∨ parsed.type = "peer-ready" then
    broadcast sessions sessionId { parsed with senderRole := some role } (some pid)
  else []

/-- C6: every envelope the server relays carries senderRole equal to the
connection role from the handshake, and two inbound envelopes differing only
in their client-supplied senderRole produce identical broadcasts. -/
theorem sender_role_overridden (sessions : Registry) (sessionId pid role : String)
    (e : Envelope) (r1 r2 : Option String) :
    handleMessage sessions sessionId pid role { e with senderRole := r1 } =
      handleMessage sessions sessionId pid role { e with senderRole := r2 } ∧
    (∀ d ∈ handleMessage sessions sessionId pid role e,
      d.2.senderRole = some role) := by
  refine ⟨rfl, ?_⟩
  intro d hd
  unfold handleMessage at hd
  by_cases h : e.type = "offer" ∨ e.type = "answer" ∨ e.type = "ice" ∨
      e.type = "hangup" ∨ e.type = "peer-ready"
  · rw [if_pos h] at hd
    have := broadcast_delivery_envelope sessions sessionId
      { e with senderRole := some role } (some pid) d hd
    rw [this]
  · rw [if_neg h] at hd
    cases hd

/-- Witness for C6: relaying a concrete offer whose client-side senderRole
lies about the role; the envelope delivered to the other participant
carries the handshake role vtm. -/
theorem sender_role_overridden_witness :
    handleMessage sampleRegistry "S1" "A" "vtm"
        { sampleOffer with senderRole := some "agent" } =
      handleMessage sampleRegistry "S1" "A" "vtm"
        { sampleOffer with senderRole := none } ∧
    (("B", { sampleOffer with senderRole := some "vtm" }) :
        String × Envelope).2.senderRole = some "vtm" :=
  ⟨(sender_role_overridden sampleRegistry "S1" "A" "vtm" sampleOffer
      (some "agent") none).1,
   (sender_role_overridden sampleRegistry "S1" "A" "vtm" sampleOffer
      (some "agent") none).2
      ("B", { sampleOffer with senderRole := some "vtm" }) (by decide)⟩

/-- C10: an inbound envelope whose type is not among offer, answer, ice,
hangup, peer-ready is never broadcast: the handler produces no deliveries. -/
theorem only_allowed_types_relayed (sessions : Registry) (sessionId pid role : String)
    (e : Envelope)
    (h : e.type ≠ "offer" ∧ e.type ≠ "answer" ∧ e.type ≠ "ice" ∧
      e.type ≠ "hangup" ∧ e.type ≠ "peer-ready") :
    handleMessage sessions sessionId pid role e = [] := by
  unfold handleMessage
  rw [if_neg]
  rintro (h1 | h2 | h3 | h4 | h5)
  · exact h.1 h1
  · exact h.2.1 h2
  · exact h.2.2.1 h3
  · exact h.2.2.2.1 h4
  · exact h.2.2.2.2 h5

/-- Witness for C10: a client-forged peer-update envelope is not relayed to
the other participant of the session. -/
theorem only_allowed_types_relayed_witness :
    handleMessage sampleRegistry "S1" "A" "vtm"
      ⟨"peer-update", some (Payload.participants 5), some "agent"⟩ = [] :=
  only_allowed_types_relayed sampleRegistry "S1" "A" "vtm"
    ⟨"peer-update", some (Payload.participants 5), some "agent"⟩ (by decide)

end SignalingServer

namespace Annot

/-- Modelled from the spec: DEFAULT_ANNOTATION_TTL from src/types/annotations.ts,
whose source file is not in the repository snapshot (only its importers are);
the spec states the default time-to-live is 20000 ms. -/
def DEFAULT_TTL : Int := 20000

/-- A RenderableAnnotation entry of the kiosk receiver
(AnnotationOverlay.tsx line 10): the draw message plus the createdAt stamp
taken at receipt. Geometry fields are irrelevant to expiry and omitted;
ttlMs stays optional because the overlay type allows it, though the
receiver always fills it in. Times are in integer milliseconds. -/
structure Entry where
  id : String
  ttlMs : Option Int
  createdAt : Int
deriving DecidableEq

/-- An inbound annotation draw message (kind annotation). -/
structure DrawMsg where
  id : String
  ttlMs : Option Int
  shape : String
deriving DecidableEq

/-- processAnnotationJson, kind annotation branch (LiveAgentAssistPanel.tsx
lines 240-254): default the ttl, stamp createdAt with the current time,
drop any prior entry with the same id and append the new one. -/
def receiveDraw (now : Int) (m : DrawMsg) (entries : List Entry) : List Entry :=
  entries.filter (fun a => a.id != m.id) ++ [⟨m.id, some (m.ttlMs.getD DEFAULT_TTL), now⟩]

/-- processAnnotationJson, kind clear branch (lines 256-262). -/
def receiveClear (targetId : Option String) (entries : List Entry) : List Entry :=
  match targetId with
  | some t => entries.filter (fun a => a.id != t)
  | none => []

/-- One tick of the 2-second expiry interval (LiveAgentAssistPanel.tsx
lines 94-110): keep an entry while now - createdAt < (ttlMs ?? default). -/
def sweep (now : Int) (entries : List Entry) : List Entry :=
  entries.filter (fun a => decide (now - a.createdAt < a.ttlMs.getD DEFAULT_TTL))

/-- The collection after all sweep ticks of a run, oldest first. -/
def applySweeps (times : List Int) (entries : List Entry) : List Entry :=
  times.foldl (fun acc u => sweep u acc) entries

/-- The sweep instants of the 2000 ms interval started at time start that
happen no later than time t: start+2000, start+4000, and so on. -/
def sweepTimes (start t : Int) : List Int :=
  (List.range ((t - start).toNat / 2000)).map
    (fun (k : Nat) => start + 2000 * ((k : Int) + 1))

theorem mem_sweepTimes (start t : Int) (k : Nat)
    (hk : k < (t - start).toNat / 2000) :
    start + 2000 * ((k : Int) + 1) ∈ sweepTimes start t := by
  simp only [sweepTimes, List.mem_map, List.mem_range]
  exact ⟨k, hk, rfl⟩

theorem applySweeps_nil (times : List Int) : applySweeps times [] = [] := by
  induction times with
  | nil => rfl
  | cons u rest ih => simpa [applySweeps, sweep] using ih

theorem applySweeps_keep (a : Entry) (times : List Int)
    (h : ∀ u ∈ times, u - a.createdAt < a.ttlMs.getD DEFAULT_TTL) :
    applySweeps times [a] = [a] := by
  induction times with
  | nil => rfl
  | cons u rest ih =>
    have hu : u - a.createdAt < a.ttlMs.getD DEFAULT_TTL := h u (by simp)
    have hstep : sweep u [a] = [a] := by simp [sweep, hu]
    show applySweeps rest (sweep u [a]) = [a]
    rw [hstep]
    exact ih (fun v hv => h v (by simp [hv]))

theorem applySweeps_kill (a : Entry) (times : List Int)
    (h : ∃ u ∈ times, a.ttlMs.getD DEFAULT_TTL ≤ u - a.createdAt) :
    applySweeps times [a] = [] := by
  induction times with
  | nil => rcases h with ⟨u, hu, _⟩; cases hu
  | cons v rest ih =>
    rcases h with ⟨u, hu, hexp⟩
    rcases List.mem_cons.mp hu with hv | hrest
    · subst hv
      have hstep : sweep u [a] = [] := by
        simp [sweep, not_lt.mpr hexp]
      show applySweeps rest (sweep u [a]) = []
      rw [hstep]
      exact applySweeps_nil rest
    · by_cases hk : v - a.createdAt < a.ttlMs.getD DEFAULT_TTL
      · have hstep : sweep v [a] = [a] := by simp [sweep, hk]
        show applySweeps rest (sweep v [a]) = []
        rw [hstep]
        exact ih ⟨u, hrest, hexp⟩
      · have hstep : sweep v [a] = [] := by simp [sweep, hk]
        show applySweeps rest (sweep v [a]) = []
        rw [hstep]
        exact applySweeps_nil rest

/-- C7 counterexample: an annotation received at time 0 with ttlMs = 1000 is
still in the collection at time 1500 = t0 + T + 500 (so with epsilon = 500 > 0),
because the 2000 ms interval has not ticked yet: the first sweep of a run
started at receipt time happens at t0 + 2000. -/
theorem ttl_expiry_counterexample :
    applySweeps (sweepTimes 0 1500) (receiveDraw 0 ⟨"a1", some 1000, "circle"⟩ []) =
      [⟨"a1", some 1000, 0⟩] := by decide

/-- C7 amended: with ttlMs = T > 0, the annotation survives every sweep up
to t0 + T/2 (so it is present at that time), it is removed once any sweep at
or after t0 + T has run, and under the 2000 ms periodic schedule it is gone
at every query time from t0 + T + 2000 on. -/
theorem ttl_expiry_amended (a : Entry) (T : Int) (hTtl : a.ttlMs = some T)
    (hT : 0 < T) :
    (∀ times : List Int, (∀ u ∈ times, u ≤ a.createdAt + T / 2) →
      applySweeps times [a] = [a]) ∧
    (∀ times : List Int, (∃ u ∈ times, a.createdAt + T ≤ u) →
      applySweeps times [a] = []) ∧
    (∀ t : Int, a.createdAt + T + 2000 ≤ t →
      applySweeps (sweepTimes a.createdAt t) [a] = []) := by
  have hgetD : a.ttlMs.getD DEFAULT_TTL = T := by rw [hTtl]; rfl
  refine ⟨?_, ?_, ?_⟩
  · intro times h
    refine applySweeps_keep a times (fun u hu => ?_)
    rw [hgetD]
    have := h u hu
    omega
  · intro times h
    refine applySweeps_kill a times ?_
    rcases h with ⟨u, hu, hexp⟩
    exact ⟨u, hu, by rw [hgetD]; omega⟩
  · intro t ht
    refine applySweeps_kill a (sweepTimes a.createdAt t) ?_
    refine ⟨_, mem_sweepTimes a.createdAt t (T.toNat / 2000) ?_, ?_⟩
    · have h3 : T.toNat / 2000 + 1 = (T.toNat + 2000) / 2000 := by
        rw [Nat.add_div_right _ (by norm_num)]
      calc T.toNat / 2000 < T.toNat / 2000 + 1 := Nat.lt_succ_self _
        _ = (T.toNat + 2000) / 2000 := h3
        _ ≤ (t - a.createdAt).toNat / 2000 := by
            refine Nat.div_le_div_right ?_
            omega
    · rw [hgetD]
      have hmod : T.toNat % 2000 + 2000 * (T.toNat / 2000) = T.toNat :=
        Nat.mod_add_div _ _
      have hlt : T.toNat % 2000 < 2000 := Nat.mod_lt _ (by norm_num)
      omega

/-- Witness for C7 amended at ttlMs = 1000, receipt time 0: present after
the (empty) sweep schedule up to time 500, absent at time 5000. -/
theorem ttl_expiry_amended_witness :
    applySweeps (sweepTimes 0 500) [⟨"a1", some 1000, 0⟩] = [⟨"a1", some 1000, 0⟩] ∧
    applySweeps (sweepTimes 0 5000) [⟨"a1", some 1000, 0⟩] = [] :=
  ⟨(ttl_expiry_amended ⟨"a1", some 1000, 0⟩ 1000 rfl (by decide)).1
      (sweepTimes 0 500) (by decide),
   (ttl_expiry_amended ⟨"a1", some 1000, 0⟩ 1000 rfl (by decide)).2.2
      5000 (by decide)⟩

end Annot

namespace Panel

/-- CallState of the requester-side panel (LiveAgentAssistPanel.tsx line 26). -/
inductive CallState where
  | idle
  | preparing
  | connecting
  | connected
  | error
deriving DecidableEq

/-- Payload of a client SignalingMessage (webrtc-client types): a session
description, an ICE candidate, a participants counter, or an error text. -/
inductive MsgPayload where
  | sdp (description : String)
  | candidate (c : String)
  | participants (count : Int)
  | message (text : String)
deriving DecidableEq

/-- A client-side SignalingMessage. -/
structure Msg where
  type : String
  payload : Option MsgPayload
  senderRole : Option String
deriving DecidableEq

/-- The mutable refs and React state of LiveAgentAssistPanel that the claims
touch. Opaque browser resources (socket, peer connection, data channel,
media streams) are abstracted to presence booleans; sentMessages is the
observable trace of frames written to the signaling socket. -/
structure PanelState where
  callState : CallState
  sessionId : Option String
  callError : Option String
  participantCount : Int
  wsPresent : Bool
  socketOpen : Bool
  pcPresent : Bool
  dataChannelPresent : Bool
  localCamera : Bool
  localScreen : Bool
  remoteCamera : Bool
  remoteScreen : Bool
  remoteAudio : Bool
  pendingSignals : List Msg
  lastOffer : Option String
  overlayEntries : List Annot.Entry
  sentMessages : List Msg
deriving DecidableEq

/-- sendSignal (LiveAgentAssistPanel.tsx lines 112-119): write to the socket
when it is present and OPEN, otherwise append to the pending queue. -/
def sendSignal (message : Msg) (st : PanelState) : PanelState :=
  if st.wsPresent = true ∧ st.socketOpen = true then
    { st with sentMessages := st.sentMessages ++ [message] }
  else
    { st with pendingSignals := st.pendingSignals ++ [message] }

/-- flushPendingSignals (lines 121-133): no-op unless the socket is present
and OPEN and the queue is non-empty; then write every queued message in
order and clear the queue. -/
def flushPendingSignals (st : PanelState) : PanelState :=
  if st.wsPresent = true ∧ st.socketOpen = true then
    if st.pendingSignals.isEmpty then st
    else
      { st with
        sentMessages := st.sentMessages ++ st.pendingSignals
        pendingSignals := [] }
  else st

/-- cleanupLiveAgent (lines 135-191): drop every resource and ref, clear the
queue, annotations and session id, record the reason, and enter nextState.
The socket object is closed only when closeSocket is set; the ref is cleared
either way. -/
def cleanupLiveAgent (reason : Option String) (nextState : CallState)
    (closeSocket : Bool) (st : PanelState) : PanelState :=
  { st with
    wsPresent := false
    socketOpen := if closeSocket then false else st.socketOpen
    pcPresent := false
    dataChannelPresent := false
    localCamera := false
    localScreen := false
    remoteCamera := false
    remoteScreen := false
    remoteAudio := false
    participantCount := 1
    lastOffer := none
    sessionId := none
    overlayEntries := []
    pendingSignals := []
    callError := reason
    callState := nextState }

/-- The error text chosen by the error branch: payload?.message ?? default. -/
def errorReason (m : Msg) : String :=
  match m.payload with
  | some (MsgPayload.message text) => text
  | _ => "Signaling error"

/-- handleSignalingMessage (lines 291-352), success paths of the async peer
calls: peer-update updates the participant count and re-sends the stored
offer when an agent joined and an offer exists; heartbeat is ignored; error
and hangup tear down with their respective next states; answer and ice act
only on the peer resource. -/
def handleSignalingMessage (st : PanelState) (message : Msg) : PanelState :=
  if message.type = "peer-update" then
    match message.payload with
    | some (MsgPayload.participants n) =>
      let st1 := { st with participantCount := n }
      if message.senderRole = some "agent" ∧ 1 < n then
        match st.lastOffer with
        | some offer => sendSignal ⟨"offer", some (MsgPayload.sdp offer), none⟩ st1
        | none => st1
      else st1
    | _ => st
  else if message.type = "heartbeat" then st
  else if message.type = "error" then
    cleanupLiveAgent (some (errorReason message)) CallState.error false st
  else if st.pcPresent = false then st
  else if message.type = "answer" then st
  else if message.type = "ice" then st
  else if message.type = "hangup" then
    cleanupLiveAgent (some "Agent ended the session") CallState.idle false st
  else st

/-- endLiveAgentSession (lines 526-532): no-op when idle, otherwise send a
hangup frame and run the clean teardown into idle. -/
def endLiveAgentSession (st : PanelState) : PanelState :=
  if st.callState = CallState.idle then st
  else cleanupLiveAgent none CallState.idle true (sendSignal ⟨"hangup", none, none⟩ st)

/-- C4: a peer-update from an agent reporting more than one participant,
arriving while a previously created offer is stored, makes the controller
re-send exactly that stored offer over the open signaling socket; the stored
offer itself is unchanged (no new offer is created). -/
theorem late_join_resends_last_offer (st : PanelState) (n : Int) (offer : String)
    (hOffer : st.lastOffer = some offer) (hn : 1 < n)
    (hWs : st.wsPresent = true) (hOpen : st.socketOpen = true) :
    handleSignalingMessage st ⟨"peer-update", some (MsgPayload.participants n), some "agent"⟩ =
      { st with
        participantCount := n
        sentMessages := st.sentMessages ++ [⟨"offer", some (MsgPayload.sdp offer), none⟩] } := by
  unfold handleSignalingMessage
  simp only [reduceIte]
  rw [hOffer]
  simp [hn, sendSignal, hWs, hOpen]

def connectingState : PanelState :=
  { callState := CallState.connecting
    sessionId := some "S1"
    callError := none
    participantCount := 1
    wsPresent := true
    socketOpen := true
    pcPresent := true
    dataChannelPresent := false
    localCamera := true
    localScreen := true
    remoteCamera := false
    remoteScreen := false
    remoteAudio := false
    pendingSignals := []
    lastOffer := some "offer-sdp-v1"
    overlayEntries := []
    sentMessages := [⟨"offer", some (MsgPayload.sdp "offer-sdp-v1"), none⟩] }

/-- Witness for C4: the requester in connecting with a sent offer observes
peer-update with participants 2 from the agent and re-sends the same offer. -/
theorem late_join_resends_last_offer_witness :
    handleSignalingMessage connectingState
        ⟨"peer-update", some (MsgPayload.participants 2), some "agent"⟩ =
      { connectingState with
        participantCount := 2
        sentMessages := connectingState.sentMessages ++
          [⟨"offer", some (MsgPayload.sdp "offer-sdp-v1"), none⟩] } :=
  late_join_resends_last_offer connectingState 2 "offer-sdp-v1"
    rfl (by decide) rfl rfl

theorem sendSignal_closed_foldl (msgs : List Msg) (st : PanelState)
    (h : st.socketOpen = false) :
    msgs.foldl (fun s m => sendSignal m s) st =
      { st with pendingSignals := st.pendingSignals ++ msgs } := by
  induction msgs generalizing st with
  | nil => simp
  | cons m rest ih =>
    have hcond : ¬ (st.wsPresent = true ∧ st.socketOpen = true) := by
      intro hc; rw [h] at hc; exact Bool.false_ne_true hc.2
    show rest.foldl (fun s m => sendSignal m s) (sendSignal m st) = _
    rw [sendSignal, if_neg hcond]
    rw [ih { st with pendingSignals := st.pendingSignals ++ [m] } h]
    simp

/-- C5: every signaling message submitted while the socket is not yet open
is queued in submission order behind the existing queue, nothing is written
to the socket, and once the socket opens the flush writes the whole queue in
FIFO order and empties it. -/
theorem pending_signals_fifo (st : PanelState) (msgs : List Msg)
    (hClosed : st.socketOpen = false) :
    (msgs.foldl (fun s m => sendSignal m s) st).pendingSignals =
      st.pendingSignals ++ msgs ∧
    (msgs.foldl (fun s m => sendSignal m s) st).sentMessages = st.sentMessages ∧
    (flushPendingSignals
        { msgs.foldl (fun s m => sendSignal m s) st with
          wsPresent := true, socketOpen := true }).sentMessages =
      st.sentMessages ++ (st.pendingSignals ++ msgs) ∧
    (flushPendingSignals
        { msgs.foldl (fun s m => sendSignal m s) st with
          wsPresent := true, socketOpen := true }).pendingSignals = [] := by
  rw [sendSignal_closed_foldl msgs st hClosed]
  refine ⟨rfl, rfl, ?_, ?_⟩ <;>
  · rw [flushPendingSignals]
    by_cases hemp : st.pendingSignals ++ msgs = [] <;>
      simp [hemp]

def preparingState : PanelState :=
  { connectingState with
    callState := CallState.preparing
    socketOpen := false
    lastOffer := none
    sentMessages := [] }

/-- Witness for C5: two ICE candidates queued before the socket opens are
flushed in submission order, after which the queue is empty. -/
theorem pending_signals_fifo_witness :
    (([⟨"ice", some (MsgPayload.candidate "c1"), none⟩,
        ⟨"ice", some (MsgPayload.candidate "c2"), none⟩] : List Msg).foldl
          (fun s m => sendSignal m s) preparingState).pendingSignals =
      [⟨"ice", some (MsgPayload.candidate "c1"), none⟩,
        ⟨"ice", some (MsgPayload.candidate "c2"), none⟩] ∧
    (flushPendingSignals
        { ([⟨"ice", some (MsgPayload.candidate "c1"), none⟩,
            ⟨"ice", some (MsgPayload.candidate "c2"), none⟩] : List Msg).foldl
              (fun s m => sendSignal m s) preparingState with
          wsPresent := true, socketOpen := true }).sentMessages =
      [⟨"ice", some (MsgPayload.candidate "c1"), none⟩,
        ⟨"ice", some (MsgPayload.candidate "c2"), none⟩] := by
  have h := pending_signals_fifo preparingState
    [⟨"ice", some (MsgPayload.candidate "c1"), none⟩,
      ⟨"ice", some (MsgPayload.candidate "c2"), none⟩] rfl
  exact ⟨h.1, h.2.2.1⟩

/-- C8 counterexample: the peer-failure teardown path of the source invokes
cleanupLiveAgent with nextState error (LiveAgentAssistPanel.tsx line 425),
and afterwards the controller state is error, not idle. -/
theorem cleanup_state_counterexample :
    (cleanupLiveAgent (some "Peer connection failed") CallState.error true
        connectingState).callState ≠ CallState.idle := by
  decide

/-- C8 amended: cleanup always releases every resource, clears the queue,
session id and stored offer, and leaves the controller in the nextState its
caller selects: error for the failure paths, idle for the clean ones; in
particular the remote-hangup envelope and the local end operation both land
in idle. -/
theorem cleanup_next_state_amended (reason : Option String)
    (nextState : CallState) (closeSocket : Bool) (st : PanelState) :
    (cleanupLiveAgent reason nextState closeSocket st).callState = nextState ∧
    (cleanupLiveAgent reason nextState closeSocket st).wsPresent = false ∧
    (cleanupLiveAgent reason nextState closeSocket st).pcPresent = false ∧
    (cleanupLiveAgent reason nextState closeSocket st).localCamera = false ∧
    (cleanupLiveAgent reason nextState closeSocket st).localScreen = false ∧
    (cleanupLiveAgent reason nextState closeSocket st).pendingSignals = [] ∧
    (cleanupLiveAgent reason nextState closeSocket st).sessionId = none ∧
    (cleanupLiveAgent reason nextState closeSocket st).lastOffer = none ∧
    (st.pcPresent = true →
      (handleSignalingMessage st ⟨"hangup", none, none⟩).callState =
        CallState.idle) ∧
    (endLiveAgentSession st).callState = CallState.idle := by
  refine ⟨rfl, rfl, rfl, rfl, rfl, rfl, rfl, rfl, ?_, ?_⟩
  · intro hpc
    rw [handleSignalingMessage]
    simp [hpc]
    rfl
  · rw [endLiveAgentSession]
    by_cases h : st.callState = CallState.idle
    · rw [if_pos h]; exact h
    · rw [if_neg h]; rfl

/-- Witness for C8 amended: an error-path teardown of a concrete connecting
state ends in error with everything released, and the remote hangup on the
same state ends in idle. -/
theorem cleanup_next_state_amended_witness :
    (cleanupLiveAgent (some "Peer connection failed") CallState.error true
        connectingState).callState = CallState.error ∧
    (handleSignalingMessage connectingState ⟨"hangup", none, none⟩).callState =
      CallState.idle :=
  ⟨(cleanup_next_state_amended (some "Peer connection failed") CallState.error
      true connectingState).1,
   (cleanup_next_state_amended (some "Peer connection failed") CallState.error
      true connectingState).2.2.2.2.2.2.2.2.1 rfl⟩

theorem endLiveAgentSession_callState (st : PanelState) :
    (endLiveAgentSession st).callState = CallState.idle := by
  rw [endLiveAgentSession]
  by_cases h : st.callState = CallState.idle
  · rw [if_pos h]; exact h
  · rw [if_neg h]; rfl

/-- C9: the local hangup, issued outside idle, releases the local media
tracks, the peer resource and the socket, clears the pending queue and the
session id, and lands in idle; and it is idempotent: the second call in
succession is a no-op, so two calls have exactly the observable effect of
one. -/
theorem hangup_idempotent (st : PanelState) :
    (st.callState ≠ CallState.idle →
      (endLiveAgentSession st).wsPresent = false ∧
      (endLiveAgentSession st).socketOpen = false ∧
      (endLiveAgentSession st).pcPresent = false ∧
      (endLiveAgentSession st).localCamera = false ∧
      (endLiveAgentSession st).localScreen = false ∧
      (endLiveAgentSession st).pendingSignals = [] ∧
      (endLiveAgentSession st).sessionId = none ∧
      (endLiveAgentSession st).callState = CallState.idle) ∧
    endLiveAgentSession (endLiveAgentSession st) = endLiveAgentSession st := by
  constructor
  · intro h
    rw [endLiveAgentSession, if_neg h]
    exact ⟨rfl, rfl, rfl, rfl, rfl, rfl, rfl, rfl⟩
  · conv_lhs => rw [endLiveAgentSession]
    rw [if_pos (endLiveAgentSession_callState st)]

/-- Witness for C9 at a concrete connecting state. -/
theorem hangup_idempotent_witness :
    (endLiveAgentSession connectingState).pcPresent = false ∧
    (endLiveAgentSession connectingState).callState = CallState.idle ∧
    endLiveAgentSession (endLiveAgentSession connectingState) =
      endLiveAgentSession connectingState :=
  ⟨((hangup_idempotent connectingState).1 (by decide)).2.2.1,
   ((hangup_idempotent connectingState).1 (by decide)).2.2.2.2.2.2.2,
   (hangup_idempotent connectingState).2⟩

end Panel

namespace Broker

/-- A parsed /api/ticket request body (server/websocket-server.js). The body
is syntactically valid JSON; id is the value of its id field when that value
supports slicing (a string), none when the field is absent. The remaining
fields are opaque to the broker, which never reads or rewrites them; the
timestamp and status fields are kept visible to show they pass through
unchanged. -/
structure TicketMsg where
  id : Option String
  timestamp : Option String
  status : Option String
  rest : String
deriving DecidableEq

/-- A dashboard WebSocket in the clients set; readyState 1 is OPEN. -/
structure BrokerClient where
  cid : String
  readyState : Nat
deriving DecidableEq

/-- The HTTP response of the ticket endpoint. -/
structure HttpResponse where
  status : Nat
  success : Bool
deriving DecidableEq

/-- An event pushed to a dashboard socket. -/
inductive DashboardEvent where
  | newTicket (t : TicketMsg)
  | updateTicket (ticketId status : String)
  | connectionEstablished
deriving DecidableEq

/-- broadcastToClients (websocket-server.js lines 196-207): deliver the
event to every client whose readyState is 1. -/
def broadcastToClients (clients : List BrokerClient) (event : DashboardEvent) :
    List (String × DashboardEvent) :=
  (clients.filter (fun c => c.readyState == 1)).map (fun c => (c.cid, event))

/-- The POST /api/ticket branch of requestListener (lines 69-99): after the
JSON parse succeeds, the log line calls ticket.id.slice, which throws when
the id is absent; the catch answers 400 with success false and nothing is
broadcast. Otherwise the ticket is broadcast verbatim as a new_ticket event
and the response is 200 with success true. -/
def handleTicketPost (ticket : TicketMsg) (clients : List BrokerClient) :
    HttpResponse × List (String × DashboardEvent) :=
  match ticket.id with
  | none => (⟨400, false⟩, [])
  | some _ => (⟨200, true⟩, broadcastToClients clients (DashboardEvent.newTicket ticket))

/-- The ticket fields the kiosk submits (src/lib/live-agent.ts,
LiveAgentTicketPayload); none of them is named id, timestamp or status, so
the object spread in createLiveAgentTicket cannot override those keys. -/
structure TicketPayload where
  sessionId : String
  ticketId : Option String
  rest : String
deriving DecidableEq

/-- The body createLiveAgentTicket posts (live-agent.ts lines 34-39): id is
the caller-supplied ticketId or a fresh uuid, the timestamp is the current
time, the status starts as pending. -/
def clientBuildTicket (payload : TicketPayload) (uuid now : String) : TicketMsg :=
  { id := some (payload.ticketId.getD uuid)
    timestamp := some now
    status := some "pending"
    rest := payload.rest }

/-- C3 counterexample: a POST body that is syntactically valid JSON but has
no id field makes ticket.id.slice throw, so the broker answers 400 with
success false and broadcasts nothing to the connected dashboard, refuting
that every valid-JSON POST is assigned an id, broadcast and acknowledged
with success. -/
theorem ticket_post_counterexample :
    handleTicketPost ⟨none, none, none, "sessionId S1 priority high"⟩
        [⟨"dash1", 1⟩] =
      (⟨400, false⟩, []) := by
  decide

/-- C3 amended: the broker performs no id assignment and no timestamping; a
valid-JSON body with an id is broadcast verbatim as new_ticket to every
dashboard socket whose readyState is OPEN and acknowledged with success,
a valid-JSON body without an id yields 400 with success false and no
broadcast, and it is the kiosk client that fills in id, timestamp and
status before posting, so every ticket built by createLiveAgentTicket is
accepted. -/
theorem ticket_post_amended (ticket : TicketMsg) (clients : List BrokerClient) :
    (∀ i, ticket.id = some i →
      handleTicketPost ticket clients =
        (⟨200, true⟩,
          (clients.filter (fun c => c.readyState == 1)).map
            (fun c => (c.cid, DashboardEvent.newTicket ticket)))) ∧
    (ticket.id = none → handleTicketPost ticket clients = (⟨400, false⟩, [])) ∧
    (∀ payload uuid now,
      (clientBuildTicket payload uuid now).id = some (payload.ticketId.getD uuid) ∧
      (clientBuildTicket payload uuid now).timestamp = some now) := by
  refine ⟨?_, ?_, ?_⟩
  · intro i hi
    rw [handleTicketPost, hi]
    rfl
  · intro hi
    rw [handleTicketPost, hi]
  · intro payload uuid now
    exact ⟨rfl, rfl⟩

/-- Witness for C3 amended: a ticket with id t1 reaches the open dashboard
socket and not the closed one, carried verbatim. -/
theorem ticket_post_amended_witness :
    handleTicketPost ⟨some "t1", some "2026-01-01", some "pending", "S1"⟩
        [⟨"dash1", 1⟩, ⟨"dash2", 3⟩] =
      (⟨200, true⟩,
        [("dash1",
          DashboardEvent.newTicket ⟨some "t1", some "2026-01-01", some "pending", "S1"⟩)]) :=
  (ticket_post_amended ⟨some "t1", some "2026-01-01", some "pending", "S1"⟩
      [⟨"dash1", 1⟩, ⟨"dash2", 3⟩]).1 "t1" rfl

end Broker
